import Mathlib

/-!
Shallow embedding of the systemd-tui-monitor session controller
(`src/app.rs`, `src/app/model.rs`, `src/app/systemd.rs`).

Modelling conventions:
* `Instant` is a natural number of milliseconds on a monotonic clock;
  `Instant::elapsed()` at time `now` is the truncated subtraction
  `now - last`, and `Duration` values are naturals in milliseconds
  (the code's `data_tick_rate` of 2 s becomes `2000`).
* `u16` quantities (`log_scroll`, terminal height arithmetic) are
  naturals; where the Rust code casts (`as u16`) or multiplies in `u16`,
  the wrap-around is made explicit with `% 65536`; `saturating_sub` is
  natural-number subtraction.
* Fallible external calls (`systemctl`, `journalctl`) are parameters of
  type `Except Unit _`: the controller functions take the call's outcome
  as an argument instead of performing I/O.
* Command output that the Rust code processes with `split_whitespace`
  is modelled as a list of lines, each line already a list of its
  whitespace-separated tokens (`List (List String)`).  A spawned
  `systemctl` command has two observable failure modes, kept distinct:
  `.output()` returning `Err` (a spawn failure, always propagated by
  `?`) is the `error` of an `Except`, while a run that produced output
  is `ok` with a `CmdOutput` carrying the exit status and the stdout.
* The `HashSet<String>` values (`user_config_services`, `seen_names`)
  are modelled as `List String` queried by membership.
-/

/-- Mirrors `model.rs`: the status record for one systemd service. -/
structure Service where
  name : String
  active_state : String
  sub_state : String
  loaded_state : String
  is_user_config : Bool
deriving DecidableEq, Repr

/-- Mirrors `Service::is_running` in `model.rs`. -/
def Service.is_running (s : Service) : Bool :=
  s.active_state = "active" && s.sub_state = "running"

/-- Mirrors `systemd.rs` `ServiceAction`. -/
inductive ServiceAction where
  | Start
  | Stop
  | Restart
deriving DecidableEq, Repr

/-- Mirrors the `App` struct of `app.rs`.  `list_state` models
`ratatui::widgets::ListState` by its `selected()` payload. -/
structure App where
  services : List Service
  list_state : Option Nat
  should_quit : Bool
  show_only_user_config : Bool
  showing_logs : Bool
  logs : List String
  log_scroll : Nat
  stick_to_bottom : Bool
  last_data_tick : Nat
deriving DecidableEq, Repr

/-- The code's `data_tick_rate` (`Duration::from_secs(2)`), in ms. -/
def data_tick_rate : Nat := 2000

/-- Mirrors `App::new` (the `Instant::now()` at construction is the
argument `now`). -/
def App.new (now : Nat) : App :=
  { services := []
    list_state := some 0
    should_quit := false
    show_only_user_config := true
    showing_logs := false
    logs := []
    log_scroll := 0
    stick_to_bottom := true
    last_data_tick := now }

/-- Mirrors `App::get_current_view_services`. -/
def get_current_view_services (services : List Service)
    (show_only_user_config : Bool) : List Service :=
  if show_only_user_config then
    services.filter (fun s => s.is_user_config)
  else
    services

/-- Length of the currently visible (filtered) list of a state. -/
def visible_len (st : App) : Nat :=
  (get_current_view_services st.services st.show_only_user_config).length

/-- Mirrors `App::refresh_services`: the outcome of
`systemd::get_user_services()` is the argument `fetch`; the `?` operator
propagates its error. -/
def refresh_services (st : App) (fetch : Except Unit (List Service)) :
    Except Unit App :=
  match fetch with
  | .error e => .error e
  | .ok new_services =>
    let st1 : App := { st with services := new_services }
    match st1.list_state with
    | some selected =>
      let current_len := visible_len st1
      if current_len = 0 then
        .ok { st1 with list_state := none }
      else if current_len ≤ selected then
        .ok { st1 with list_state := some (current_len - 1) }
      else
        .ok st1
    | none => .ok st1

/-- Mirrors the `KeyCode::Tab` handler in `App::run` (lines 150-153). -/
def toggle_filter (st : App) : App :=
  { st with
    show_only_user_config := !st.show_only_user_config
    list_state := some 0 }

/-- Mirrors `App::next`. -/
def next (st : App) (services : List Service) : App :=
  if services.isEmpty then st
  else
    let i := match st.list_state with
      | some i => if services.length - 1 ≤ i then 0 else i + 1
      | none => 0
    { st with list_state := some i }

/-- Mirrors `App::previous`. -/
def previous (st : App) (services : List Service) : App :=
  if services.isEmpty then st
  else
    let i := match st.list_state with
      | some i => if i = 0 then services.length - 1 else i - 1
      | none => 0
    { st with list_state := some i }

/-- Mirrors `App::force_next_refresh`:
`Instant::now().checked_sub(data_tick_rate * 2)` is `none` when the
monotonic clock is within `2 * data_tick_rate` of its epoch, in which
case `unwrap_or(Instant::now())` falls back to the current instant. -/
def force_next_refresh (st : App) (now : Nat) : App :=
  { st with
    last_data_tick :=
      if data_tick_rate * 2 ≤ now then now - data_tick_rate * 2 else now }

/-- Mirrors `App::perform_action`.  The outcome of
`systemd::control_service` is the argument `controlResult`, which the
code discards (`let _ = ...`); `action` is likewise only forwarded to
the external call, so neither influences the state. -/
def perform_action (st : App) (now : Nat) (action : ServiceAction)
    (services : List Service) (controlResult : Except Unit Unit) : App :=
  match st.list_state with
  | some index =>
    match services[index]? with
    | some _ => force_next_refresh st now
    | none => st
  | none => st

/-- Mirrors the `j`/`Down` handler in log mode (lines 125-130):
`(self.logs.len() as u16).saturating_sub(1)` is `len % 65536 - 1`. -/
def scroll_down_logs (st : App) : App :=
  let st1 : App := { st with stick_to_bottom := false }
  if st1.log_scroll < st1.logs.length % 65536 - 1 then
    { st1 with log_scroll := st1.log_scroll + 1 }
  else
    st1

/-- Mirrors the `k`/`Up` handler in log mode (lines 131-136). -/
def scroll_up_logs (st : App) : App :=
  let st1 : App := { st with stick_to_bottom := false }
  if 0 < st1.log_scroll then
    { st1 with log_scroll := st1.log_scroll - 1 }
  else
    st1

/-- Mirrors the `Esc`/`q`/`l` handler in log mode (lines 117-124). -/
def exit_logs (st : App) (now : Nat) : App :=
  force_next_refresh
    { st with
      showing_logs := false
      logs := []
      log_scroll := 0
      stick_to_bottom := true }
    now

/-- Mirrors the `l` handler in list mode (lines 155-171); `getLogs` is
the outcome of `systemd::get_service_logs` per service name. -/
def enter_logs (st : App) (current_view : List Service)
    (getLogs : String → Except Unit (List String)) : App :=
  match st.list_state with
  | some index =>
    match current_view[index]? with
    | some service =>
      match getLogs service.name with
      | .ok logs =>
        { st with
          logs := logs
          showing_logs := true
          log_scroll := 0
          stick_to_bottom := true }
      | .error _ => st
    | none => st
  | none => st

/-- The code's log-popup viewport rows,
`(terminal_size.height * 80 / 100).saturating_sub(2)`, with the `u16`
multiplication made explicit (`% 65536`). -/
def popup_height (terminal_height : Nat) : Nat :=
  terminal_height * 80 % 65536 / 100 - 2

/-- Mirrors the per-cycle log-refresh block of `App::run`
(lines 77-94): re-fetches logs for the selected service while
`showing_logs` holds, replacing `logs` only on success and recomputing
`log_scroll` only when `stick_to_bottom` is set. -/
def run_log_block (st : App) (current_view : List Service)
    (terminal_height : Nat)
    (getLogs : String → Except Unit (List String)) : App :=
  if st.showing_logs then
    match st.list_state with
    | some index =>
      match current_view[index]? with
      | some service =>
        match getLogs service.name with
        | .ok new_logs =>
          let st1 : App := { st with logs := new_logs }
          if st1.stick_to_bottom then
            { st1 with
              log_scroll :=
                st1.logs.length % 65536 - popup_height terminal_height }
          else
            st1
        | .error _ => st
      | none => st
    | none => st
  else
    st

/-- Logical key inputs of `App::run`'s dispatch tables. -/
inductive KeyInput where
  | keyQ
  | keyJ
  | keyK
  | keyTab
  | keyL
  | keyS
  | keyX
  | keyR
  | keyEsc
  | keyDown
  | keyUp
  | keyG
  | keyEnd
  | keyOther
deriving DecidableEq, Repr

/-- One cycle's external observations: the current instant, the
terminal height from `terminal.size()`, the outcomes of the fallible
`systemctl`/`journalctl` calls, and the key read this cycle (if any). -/
structure Env where
  now : Nat
  terminal_height : Nat
  listServices : Except Unit (List Service)
  getLogs : String → Except Unit (List String)
  controlResult : Except Unit Unit
  key : Option KeyInput

/-- Mirrors the key dispatch of `App::run` (lines 115-187), split by
`showing_logs`. -/
def handle_key (st : App) (current_view : List Service) (now : Nat)
    (getLogs : String → Except Unit (List String))
    (controlResult : Except Unit Unit) (k : KeyInput) : App :=
  if st.showing_logs then
    match k with
    | .keyEsc | .keyQ | .keyL => exit_logs st now
    | .keyJ | .keyDown => scroll_down_logs st
    | .keyK | .keyUp => scroll_up_logs st
    | .keyG | .keyEnd => { st with stick_to_bottom := true }
    | _ => st
  else
    match k with
    | .keyQ => { st with should_quit := true }
    | .keyJ => next st current_view
    | .keyK => previous st current_view
    | .keyTab => toggle_filter st
    | .keyL => enter_logs st current_view getLogs
    | .keyS => perform_action st now ServiceAction.Start current_view controlResult
    | .keyX => perform_action st now ServiceAction.Stop current_view controlResult
    | .keyR => perform_action st now ServiceAction.Restart current_view controlResult
    | _ => st

/-- Mirrors lines 72-75 of `App::run`: when not in log mode and the
data cadence has elapsed, re-fetch the service list (`?` propagates the
error) and stamp `last_data_tick`. -/
def refresh_step (st : App) (env : Env) : Except Unit App :=
  if st.showing_logs = false ∧ data_tick_rate ≤ env.now - st.last_data_tick then
    match refresh_services st env.listServices with
    | .error e => .error e
    | .ok st1 => .ok { st1 with last_data_tick := env.now }
  else
    .ok st

/-- Result of one iteration of `App::run`'s loop body. -/
inductive CycleResult where
  | cont (st : App)
  | quit (st : App)
  | err
deriving Repr

/-- One iteration of `App::run`'s loop (lines 67-198): compute the
visible view from the pre-refresh state, run the throttled refresh, the
log-mode fetch, the key dispatch, then test `should_quit`. -/
def run_cycle (st : App) (env : Env) : CycleResult :=
  let current_view := get_current_view_services st.services st.show_only_user_config
  match refresh_step st env with
  | .error _ => .err
  | .ok st1 =>
    let st2 := run_log_block st1 current_view env.terminal_height env.getLogs
    let st3 := match env.key with
      | none => st2
      | some k => handle_key st2 current_view env.now env.getLogs env.controlResult k
    if st3.should_quit then .quit st3 else .cont st3

/-- Outcome of `App::run` on a finite trace of cycle environments. -/
inductive RunOutcome where
  | ok (st : App)
  | err
  | pending (st : App)
deriving Repr

/-- The loop of `App::run` over a finite trace of environments;
`pending` means the trace ran out with the session still live. -/
def run_loop (st : App) : List Env → RunOutcome
  | [] => .pending st
  | env :: rest =>
    match run_cycle st env with
    | .err => .err
    | .quit st1 => .ok st1
    | .cont st1 => run_loop st1 rest

/-- Mirrors `App::run` (line 60): the initial `refresh_services()?`
whose outcome is `initFetch`, then the loop. -/
def run (st : App) (initFetch : Except Unit (List Service))
    (envs : List Env) : RunOutcome :=
  match refresh_services st initFetch with
  | .error _ => .err
  | .ok st0 => run_loop st0 envs

/-- Mirrors the first parsing loop of `systemd.rs`
`get_user_services` (lines 61-80): lines with fewer than four tokens
are skipped; token 0 is the name, 1 the loaded state, 2 the active
state, 3 the sub state; `is_user_config` asks the `~/.config` set. -/
def parse_loaded_units (cfg : List String) :
    List (List String) → List Service
  | [] => []
  | parts :: rest =>
    if parts.length < 4 then
      parse_loaded_units cfg rest
    else
      { name := parts.getD 0 ""
        loaded_state := parts.getD 1 ""
        active_state := parts.getD 2 ""
        sub_state := parts.getD 3 ""
        is_user_config := cfg.contains (parts.getD 0 "") }
        :: parse_loaded_units cfg rest

/-- Mirrors the second parsing loop of `get_user_services`
(lines 93-112): empty lines are skipped, and a unit file's name is
appended as an unloaded/inactive/dead service only when it is not in
`seen` (the names collected from the loaded-unit listing; the loop
never extends `seen` itself). -/
def parse_unit_files (cfg seen : List String) :
    List (List String) → List Service
  | [] => []
  | parts :: rest =>
    if parts.isEmpty then
      parse_unit_files cfg seen rest
    else
      let name := parts.headD ""
      if name ∈ seen then
        parse_unit_files cfg seen rest
      else
        { name := name
          loaded_state := "unloaded"
          active_state := "inactive"
          sub_state := "dead"
          is_user_config := cfg.contains name }
          :: parse_unit_files cfg seen rest

/-- The comparison `a.name.cmp(&b.name)` of the final `sort_by`, as the
ordering relation it sorts by. -/
def byName (a b : Service) : Prop := a.name ≤ b.name

instance : DecidableRel byName :=
  fun a b => inferInstanceAs (Decidable (a.name ≤ b.name))

instance : IsTotal Service byName :=
  ⟨fun a b => le_total a.name b.name⟩

instance : IsTrans Service byName :=
  ⟨fun _ _ _ hab hbc => le_trans hab hbc⟩

/-- The final `services.sort_by(|a, b| a.name.cmp(&b.name))` — a stable
sort by name, modelled as insertion sort. -/
def sortServices (l : List Service) : List Service :=
  List.insertionSort byName l

/-- The observable result of a `systemctl` invocation that did spawn:
its exit status (`output.status.success()`) and its tokenized stdout. -/
structure CmdOutput where
  status_success : Bool
  stdout : List (List String)

/-- Mirrors the `if output_files.status.success()` block of
`get_user_services` (systemd.rs lines 91-113): the unit-file pass
contributes its parse when the command exited successfully and nothing
when the status was non-zero. -/
def unit_file_services (cfg seen : List String)
    (output_files : CmdOutput) : List Service :=
  if output_files.status_success then
    parse_unit_files cfg seen output_files.stdout
  else
    []

/-- Mirrors `systemd.rs` `get_user_services`: `cfg` is the
`~/.config/systemd/user` name set; each command argument is `error` on
a spawn failure — propagated by `?` for `list-units` (lines 41-49) and
for `list-unit-files` (lines 82-89) alike — and `ok` with a
`CmdOutput` otherwise.  A non-zero `list-units` status aborts with an
error (lines 51-53); a non-zero `list-unit-files` status merely skips
that listing; the merged list is sorted by name. -/
def get_user_services (cfg : List String)
    (list_units_output : Except Unit CmdOutput)
    (unit_files_output : Except Unit CmdOutput) :
    Except Unit (List Service) :=
  match list_units_output with
  | .error e => .error e
  | .ok output =>
    if output.status_success = false then
      .error ()
    else
      let services1 := parse_loaded_units cfg output.stdout
      let seen_names := services1.map Service.name
      match unit_files_output with
      | .error e => .error e
      | .ok output_files =>
        .ok (sortServices (services1 ++
          unit_file_services cfg seen_names output_files))

/-- A sample operator-defined service used by concrete witnesses. -/
def svcU : Service :=
  { name := "a.service"
    active_state := "active"
    sub_state := "running"
    loaded_state := "loaded"
    is_user_config := true }

/-- A concrete log-mode state with a paused (non-sticking) scroll,
used by the log-tail theorems and witnesses. -/
def stLog : App :=
  { services := [svcU]
    list_state := some 0
    should_quit := false
    show_only_user_config := true
    showing_logs := true
    logs := ["a", "b", "c"]
    log_scroll := 2
    stick_to_bottom := false
    last_data_tick := 0 }

/-- Claim C3 (corrected): the toggle-filter action flips
`show_only_user_config` and always resets the cursor to index `0` —
also when the newly visible list is empty — leaving the service list
itself unchanged. -/
theorem C3_toggle_resets_cursor (st : App) :
    (toggle_filter st).show_only_user_config = !st.show_only_user_config ∧
    (toggle_filter st).list_state = some 0 ∧
    (toggle_filter st).services = st.services :=
  ⟨rfl, rfl, rfl⟩

/-- Claim C3, counterexample to the claim as stated: toggling the
filter on a freshly constructed state (empty service list, so the new
view is empty) leaves the cursor at `some 0` rather than `none`. -/
theorem C3_counterexample :
    visible_len (toggle_filter (App.new 0)) = 0 ∧
    (toggle_filter (App.new 0)).list_state ≠ none := by
  decide

/-- Claim C9 (confirmed): the view filter is a pure function of the
full list and the flag; its output is an order-preserving subsequence
of the input, equal to the `is_user_config` filtrate when the flag is
set and to the input itself when the flag is clear. -/
theorem C9_view_filter (services : List Service) (b : Bool) :
    (get_current_view_services services b).Sublist services ∧
    get_current_view_services services true =
      services.filter (fun s => s.is_user_config) ∧
    (∀ s : Service, s ∈ get_current_view_services services true ↔
      s ∈ services ∧ s.is_user_config = true) ∧
    get_current_view_services services false = services := by
  refine ⟨?_, rfl, ?_, rfl⟩
  · cases b
    · exact List.Sublist.refl services
    · exact List.filter_sublist (l := services) (p := fun s => s.is_user_config)
  · intro s
    simp [get_current_view_services, List.mem_filter]

/-- Claim C7 (confirmed): in log mode, when the per-cycle log fetch for
the selected service fails, the whole state — in particular the `logs`
buffer and `log_scroll` — is retained unchanged. -/
theorem C7_log_failure_retains (st : App) (view : List Service)
    (th : Nat) (getLogs : String → Except Unit (List String))
    (i : Nat) (service : Service)
    (hshow : st.showing_logs = true)
    (hsel : st.list_state = some i)
    (hget : view[i]? = some service)
    (hfail : getLogs service.name = Except.error ()) :
    run_log_block st view th getLogs = st := by
  simp [run_log_block, hshow, hsel, hget, hfail]

/-- Claim C7 witness: the failure-retention theorem applied to a
concrete log-mode state and an always-failing log oracle. -/
theorem C7_witness :
    stLog.showing_logs = true ∧
    stLog.list_state = some 0 ∧
    ([svcU][0]? = some svcU) ∧
    ((fun _ : String => (Except.error () : Except Unit (List String)))
        svcU.name = Except.error ()) ∧
    run_log_block stLog [svcU] 24
        (fun _ => (Except.error () : Except Unit (List String))) = stLog :=
  ⟨rfl, rfl, rfl, rfl,
    C7_log_failure_retains stLog [svcU] 24
      (fun _ => (Except.error () : Except Unit (List String))) 0 svcU
      rfl rfl rfl rfl⟩

/-- Claim C8 (confirmed): `next` and `previous` are no-ops on an empty
visible list; on a list of length `L > 0` they wrap at the boundaries,
and from any valid starting index `next` followed by `previous` returns
the cursor to its starting index. -/
theorem C8_next_previous (st : App) (view : List Service) (i : Nat)
    (hi : i < view.length) (hsel : st.list_state = some i) :
    next st [] = st ∧ previous st [] = st ∧
    (i = view.length - 1 → (next st view).list_state = some 0) ∧
    (i = 0 → (previous st view).list_state = some (view.length - 1)) ∧
    (previous (next st view) view).list_state = some i := by
  have hne : view.isEmpty = false := by
    cases view
    · simp at hi
    · rfl
  refine ⟨rfl, rfl, ?_, ?_, ?_⟩
  · intro h0
    subst h0
    simp [next, hne, hsel]
  · intro h0
    subst h0
    simp [previous, hne, hsel]
  · by_cases hlast : view.length - 1 ≤ i
    · have hi2 : i = view.length - 1 := by omega
      simp [next, previous, hne, hsel, hlast, hi2]
    · simp [next, previous, hne, hsel, hlast]

/-- Claim C8 witness: the wraparound theorem applied to the singleton
view `[svcU]` with the cursor at index `0`. -/
theorem C8_witness :
    (0 < ([svcU] : List Service).length) ∧
    (App.new 0).list_state = some 0 ∧
    (next (App.new 0) [] = App.new 0 ∧ previous (App.new 0) [] = App.new 0 ∧
      (0 = ([svcU] : List Service).length - 1 →
        (next (App.new 0) [svcU]).list_state = some 0) ∧
      (0 = 0 → (previous (App.new 0) [svcU]).list_state =
        some (([svcU] : List Service).length - 1)) ∧
      (previous (next (App.new 0) [svcU]) [svcU]).list_state = some 0) :=
  ⟨by decide, rfl, C8_next_previous (App.new 0) [svcU] 0 (by decide) rfl⟩

/-- Helper: while `stick_to_bottom` is off, the per-cycle log block
never touches the scroll offset, whatever the fetch returns. -/
theorem run_log_block_scroll_of_not_stick (st : App) (view : List Service)
    (th : Nat) (getLogs : String → Except Unit (List String))
    (hstick : st.stick_to_bottom = false) :
    (run_log_block st view th getLogs).log_scroll = st.log_scroll := by
  by_cases hshow : st.showing_logs = true
  · rcases hsel : st.list_state with _ | i
    · simp [run_log_block, hshow, hsel]
    · rcases hget : view[i]? with _ | service
      · simp [run_log_block, hshow, hsel, hget]
      · rcases hres : getLogs service.name with e | new_logs
        · simp [run_log_block, hshow, hsel, hget, hres]
        · simp [run_log_block, hshow, hsel, hget, hres, hstick]
  · simp [run_log_block, hshow]

/-- Claim C4 (corrected): while auto-scroll is off, the two scroll
inputs keep an in-bounds offset inside `[0, lines.len() - 1]`, but a
replacement of the `lines` buffer performs no re-clamping at all — the
offset is left exactly as it was, even when the buffer shrinks. -/
theorem C4_scroll_clamping (st : App) (view : List Service) (th : Nat)
    (getLogs : String → Except Unit (List String))
    (hstick : st.stick_to_bottom = false)
    (hlen : st.logs.length < 65536)
    (hbound : st.log_scroll ≤ st.logs.length - 1) :
    (scroll_down_logs st).log_scroll ≤ st.logs.length - 1 ∧
    (scroll_down_logs st).logs = st.logs ∧
    (scroll_up_logs st).log_scroll ≤ st.logs.length - 1 ∧
    (scroll_up_logs st).logs = st.logs ∧
    (run_log_block st view th getLogs).log_scroll = st.log_scroll := by
  refine ⟨?_, ?_, ?_, ?_,
    run_log_block_scroll_of_not_stick st view th getLogs hstick⟩
  · unfold scroll_down_logs
    dsimp only
    split
    · rename_i h
      show st.log_scroll + 1 ≤ st.logs.length - 1
      omega
    · exact hbound
  · unfold scroll_down_logs
    dsimp only
    split <;> rfl
  · unfold scroll_up_logs
    dsimp only
    split
    · show st.log_scroll - 1 ≤ st.logs.length - 1
      omega
    · exact hbound
  · unfold scroll_up_logs
    dsimp only
    split <;> rfl

/-- Claim C4 witness: the clamping/no-reclamp theorem applied to a
concrete paused log state (3 lines, offset 2) and a successful fetch. -/
theorem C4_witness :
    stLog.stick_to_bottom = false ∧
    stLog.logs.length < 65536 ∧
    stLog.log_scroll ≤ stLog.logs.length - 1 ∧
    ((scroll_down_logs stLog).log_scroll ≤ stLog.logs.length - 1 ∧
      (scroll_down_logs stLog).logs = stLog.logs ∧
      (scroll_up_logs stLog).log_scroll ≤ stLog.logs.length - 1 ∧
      (scroll_up_logs stLog).logs = stLog.logs ∧
      (run_log_block stLog [svcU] 24
          (fun _ => Except.ok ["x"])).log_scroll = stLog.log_scroll) :=
  ⟨rfl, by decide, by decide,
    C4_scroll_clamping stLog [svcU] 24 (fun _ => Except.ok ["x"])
      rfl (by decide) (by decide)⟩

/-- Claim C4, counterexample to the claim as stated: a successful fetch
that shrinks the buffer from 3 lines to 1 leaves the paused offset at
`2`, which exceeds the new last index `0` — no re-clamping happens. -/
theorem C4_counterexample :
    (run_log_block stLog [svcU] 24 (fun _ => Except.ok ["x"])).logs.length = 1 ∧
    (run_log_block stLog [svcU] 24 (fun _ => Except.ok ["x"])).log_scroll = 2 ∧
    ¬ (run_log_block stLog [svcU] 24 (fun _ => Except.ok ["x"])).log_scroll ≤
        (run_log_block stLog [svcU] 24 (fun _ => Except.ok ["x"])).logs.length - 1 := by
  refine ⟨rfl, rfl, ?_⟩
  decide

/-- Claim C5 (confirmed): when `stick_to_bottom` is set, a successful
log fetch replaces `lines` and recomputes the scroll offset as
`max 0 (lines.len() - viewport_height)`, with the viewport height
derived from the terminal height queried this cycle
(`height * 80 / 100 - 2` rows). -/
theorem C5_stick_to_bottom_scroll (st : App) (view : List Service)
    (th : Nat) (getLogs : String → Except Unit (List String))
    (i : Nat) (service : Service) (new_logs : List String)
    (hshow : st.showing_logs = true)
    (hstick : st.stick_to_bottom = true)
    (hsel : st.list_state = some i)
    (hget : view[i]? = some service)
    (hok : getLogs service.name = Except.ok new_logs)
    (hlen : new_logs.length < 65536)
    (hth : th * 80 < 65536) :
    (run_log_block st view th getLogs).logs = new_logs ∧
    ((run_log_block st view th getLogs).log_scroll : Int) =
      max 0 ((new_logs.length : Int) - ((th * 80 / 100 - 2 : Nat) : Int)) := by
  have hblock : run_log_block st view th getLogs =
      { st with
        logs := new_logs
        log_scroll := new_logs.length % 65536 - popup_height th } := by
    simp [run_log_block, hshow, hsel, hget, hok, hstick]
  rw [hblock]
  refine ⟨rfl, ?_⟩
  have hpop : popup_height th = th * 80 / 100 - 2 := by
    unfold popup_height
    rw [Nat.mod_eq_of_lt hth]
  have hmod : new_logs.length % 65536 = new_logs.length :=
    Nat.mod_eq_of_lt hlen
  simp only [hpop, hmod]
  omega

/-- Claim C5 witness: the auto-scroll theorem applied to a sticking log
state, a 24-row terminal (viewport 17) and a 20-line fetch, giving
scroll offset 3. -/
theorem C5_witness :
    ({ stLog with stick_to_bottom := true } : App).showing_logs = true ∧
    ({ stLog with stick_to_bottom := true } : App).stick_to_bottom = true ∧
    ({ stLog with stick_to_bottom := true } : App).list_state = some 0 ∧
    ([svcU][0]? = some svcU) ∧
    ((fun _ : String => Except.ok (List.replicate 20 "x")) svcU.name =
      (Except.ok (List.replicate 20 "x") : Except Unit (List String))) ∧
    (List.replicate 20 "x").length < 65536 ∧
    24 * 80 < 65536 ∧
    ((run_log_block { stLog with stick_to_bottom := true } [svcU] 24
        (fun _ => Except.ok (List.replicate 20 "x"))).logs =
      List.replicate 20 "x" ∧
    ((run_log_block { stLog with stick_to_bottom := true } [svcU] 24
        (fun _ => Except.ok (List.replicate 20 "x"))).log_scroll : Int) =
      max 0 (((List.replicate 20 "x").length : Int) -
        ((24 * 80 / 100 - 2 : Nat) : Int))) :=
  ⟨rfl, rfl, rfl, rfl, rfl, by decide, by decide,
    C5_stick_to_bottom_scroll { stLog with stick_to_bottom := true }
      [svcU] 24 (fun _ => Except.ok (List.replicate 20 "x")) 0 svcU
      (List.replicate 20 "x") rfl rfl rfl rfl rfl (by decide) (by decide)⟩

/-- The cursor/visible-list relation the spec demands: absent exactly
when the list is empty, otherwise a valid index. -/
def cursor_ok : Option Nat → Nat → Prop
  | none, len => len = 0
  | some i, len => i < len

instance (c : Option Nat) (len : Nat) : Decidable (cursor_ok c len) :=
  match c with
  | none => inferInstanceAs (Decidable (len = 0))
  | some i => inferInstanceAs (Decidable (i < len))

/-- Claim C2 (corrected): after a service-list refresh, a cursor that
was present is re-clamped to satisfy the none-iff-empty/valid-index
relation; but a cursor that was `none` stays `none` even when the new
visible list is non-empty, and a filter toggle always leaves the cursor
at `some 0` even on an empty view. -/
theorem C2_cursor_invariant (st st' : App) (fetch : Except Unit (List Service))
    (h : refresh_services st fetch = Except.ok st') :
    (st.list_state = none → st'.list_state = none) ∧
    (st.list_state ≠ none → cursor_ok st'.list_state (visible_len st')) ∧
    (toggle_filter st).list_state = some 0 := by
  rcases fetch with e | new_services
  · simp [refresh_services] at h
  · rcases hsel : st.list_state with _ | s
    · simp only [refresh_services, hsel, Except.ok.injEq] at h
      subst h
      exact ⟨fun _ => rfl, fun hne => absurd rfl hne, rfl⟩
    · simp only [refresh_services, hsel, Except.ok.injEq] at h
      split_ifs at h with h0 hge
      · rw [Except.ok.injEq] at h
        subst h
        refine ⟨fun hc => by simp at hc, fun _ => ?_, rfl⟩
        simp only [cursor_ok, visible_len] at h0 ⊢
        exact h0
      · rw [Except.ok.injEq] at h
        subst h
        refine ⟨fun hc => by simp at hc, fun _ => ?_, rfl⟩
        simp only [cursor_ok, visible_len] at h0 ⊢
        omega
      · rw [Except.ok.injEq] at h
        subst h
        refine ⟨fun hc => by simp at hc, fun _ => ?_, rfl⟩
        simp only [cursor_ok, visible_len] at hge ⊢
        omega

/-- Claim C2 witness: the re-clamping theorem applied to a fresh state
(cursor at 0) refreshed with the one-element list `[svcU]`. -/
theorem C2_witness :
    refresh_services (App.new 0) (Except.ok [svcU]) =
      Except.ok { App.new 0 with services := [svcU] } ∧
    (((App.new 0).list_state = none →
        ({ App.new 0 with services := [svcU] } : App).list_state = none) ∧
      ((App.new 0).list_state ≠ none →
        cursor_ok ({ App.new 0 with services := [svcU] } : App).list_state
          (visible_len { App.new 0 with services := [svcU] })) ∧
      (toggle_filter (App.new 0)).list_state = some 0) :=
  ⟨rfl,
    C2_cursor_invariant (App.new 0) { App.new 0 with services := [svcU] }
      (Except.ok [svcU]) rfl⟩

/-- Claim C2, counterexample to the claim as stated: toggling the
filter on a state whose new visible list is empty leaves the cursor at
`some 0`, so the cursor is not `none` despite the empty view. -/
theorem C2_counterexample :
    visible_len (toggle_filter (App.new 0)) = 0 ∧
    ¬ cursor_ok (toggle_filter (App.new 0)).list_state
        (visible_len (toggle_filter (App.new 0))) := by
  decide

/-- Claim C6 (corrected): a start/stop/restart on a selected service
ignores both the chosen action and the control call's outcome — the
state is identical for any two of them, and no field changes except
`last_data_tick` — and `last_data_tick` is rewound by twice the data
cadence whenever the clock allows, making the data-cadence comparison
true at every later instant; but when the monotonic clock is within
`2 * data_tick_rate` of its epoch, `last_data_tick` is set to the
current instant instead, and no immediate refresh is guaranteed. -/
theorem C6_fire_and_forget (st : App) (now now2 : Nat)
    (action action2 : ServiceAction) (services : List Service)
    (r1 r2 : Except Unit Unit) (i : Nat) (service : Service)
    (hsel : st.list_state = some i)
    (hget : services[i]? = some service) :
    perform_action st now action services r1 =
      perform_action st now action2 services r2 ∧
    (perform_action st now action services r1).should_quit = st.should_quit ∧
    (perform_action st now action services r1).showing_logs = st.showing_logs ∧
    (perform_action st now action services r1).list_state = st.list_state ∧
    (perform_action st now action services r1).show_only_user_config =
      st.show_only_user_config ∧
    (perform_action st now action services r1).logs = st.logs ∧
    (perform_action st now action services r1).log_scroll = st.log_scroll ∧
    (perform_action st now action services r1).stick_to_bottom =
      st.stick_to_bottom ∧
    (perform_action st now action services r1).services = st.services ∧
    (data_tick_rate * 2 ≤ now → now ≤ now2 →
      data_tick_rate ≤
        now2 - (perform_action st now action services r1).last_data_tick) ∧
    (¬ data_tick_rate * 2 ≤ now →
      (perform_action st now action services r1).last_data_tick = now) := by
  have hpa : ∀ (r : Except Unit Unit) (a : ServiceAction),
      perform_action st now a services r = force_next_refresh st now := by
    intro r a
    simp [perform_action, hsel, hget]
  rw [hpa r1 action, hpa r2 action2]
  refine ⟨rfl, rfl, rfl, rfl, rfl, rfl, rfl, rfl, rfl, ?_, ?_⟩
  · intro h4 hle
    simp only [force_next_refresh, if_pos h4]
    omega
  · intro h4
    simp only [force_next_refresh, if_neg h4]

/-- Claim C6 witness: the theorem applied with the clock at 5000 ms,
two different actions and outcomes, and the cursor on `svcU`. -/
theorem C6_witness :
    (App.new 7).list_state = some 0 ∧
    (([svcU] : List Service)[0]? = some svcU) ∧
    (perform_action (App.new 7) 5000 ServiceAction.Start [svcU]
        (Except.error ()) =
      perform_action (App.new 7) 5000 ServiceAction.Stop [svcU]
        (Except.ok ()) ∧
    (perform_action (App.new 7) 5000 ServiceAction.Start [svcU]
        (Except.error ())).should_quit = (App.new 7).should_quit ∧
    (perform_action (App.new 7) 5000 ServiceAction.Start [svcU]
        (Except.error ())).showing_logs = (App.new 7).showing_logs ∧
    (perform_action (App.new 7) 5000 ServiceAction.Start [svcU]
        (Except.error ())).list_state = (App.new 7).list_state ∧
    (perform_action (App.new 7) 5000 ServiceAction.Start [svcU]
        (Except.error ())).show_only_user_config =
      (App.new 7).show_only_user_config ∧
    (perform_action (App.new 7) 5000 ServiceAction.Start [svcU]
        (Except.error ())).logs = (App.new 7).logs ∧
    (perform_action (App.new 7) 5000 ServiceAction.Start [svcU]
        (Except.error ())).log_scroll = (App.new 7).log_scroll ∧
    (perform_action (App.new 7) 5000 ServiceAction.Start [svcU]
        (Except.error ())).stick_to_bottom = (App.new 7).stick_to_bottom ∧
    (perform_action (App.new 7) 5000 ServiceAction.Start [svcU]
        (Except.error ())).services = (App.new 7).services ∧
    (data_tick_rate * 2 ≤ 5000 → 5000 ≤ 5000 →
      data_tick_rate ≤ 5000 -
        (perform_action (App.new 7) 5000 ServiceAction.Start [svcU]
          (Except.error ())).last_data_tick) ∧
    (¬ data_tick_rate * 2 ≤ 5000 →
      (perform_action (App.new 7) 5000 ServiceAction.Start [svcU]
          (Except.error ())).last_data_tick = 5000)) :=
  ⟨rfl, rfl,
    C6_fire_and_forget (App.new 7) 5000 5000 ServiceAction.Start
      ServiceAction.Stop [svcU] (Except.error ()) (Except.ok ()) 0 svcU
      rfl rfl⟩

/-- Claim C6, counterexample to the claim as stated: with the monotonic
clock at its epoch (`now = 0`), `perform_action` sets `last_data_tick`
to the current instant, and one input-cadence slice later (100 ms) the
data-cadence comparison is still false — the immediate refresh is not
guaranteed. -/
theorem C6_counterexample :
    (perform_action (App.new 0) 0 ServiceAction.Stop [svcU]
        (Except.error ())).last_data_tick = 0 ∧
    ¬ data_tick_rate ≤
        100 - (perform_action (App.new 0) 0 ServiceAction.Stop [svcU]
          (Except.error ())).last_data_tick := by
  decide

/-- A cycle environment whose service-list fetch fails, with the data
cadence already elapsed (`now = 2000`, tick stamped at 0). -/
def envFail : Env :=
  { now := 2000
    terminal_height := 24
    listServices := Except.error ()
    getLogs := fun _ => Except.error ()
    controlResult := Except.ok ()
    key := none }

/-- Claim C1 (corrected): a failing service-list refresh is always
fatal — the in-loop `refresh_services()?` propagates the error, so a
cycle whose periodic refresh fails makes `run` return `err` just like a
failing initial load does. -/
theorem C1_refresh_failure_fatal (st : App) (env : Env) (envs : List Env)
    (hlogs : st.showing_logs = false)
    (helapsed : data_tick_rate ≤ env.now - st.last_data_tick)
    (hfail : env.listServices = Except.error ()) :
    run_loop st (env :: envs) = RunOutcome.err ∧
    run st (Except.error ()) envs = RunOutcome.err := by
  constructor
  · simp [run_loop, run_cycle, refresh_step, refresh_services, hlogs,
      helapsed, hfail]
  · simp [run, refresh_services]

/-- Claim C1 witness: the fatality theorem applied to a fresh state and
a cycle at 2000 ms whose list fetch fails. -/
theorem C1_witness :
    (App.new 0).showing_logs = false ∧
    data_tick_rate ≤ envFail.now - (App.new 0).last_data_tick ∧
    envFail.listServices = Except.error () ∧
    (run_loop (App.new 0) [envFail] = RunOutcome.err ∧
      run (App.new 0) (Except.error ()) [] = RunOutcome.err) :=
  ⟨rfl, by decide, rfl,
    C1_refresh_failure_fatal (App.new 0) envFail [] rfl (by decide) rfl⟩

/-- Claim C1, counterexample to the claim as stated: the initial load
succeeds (it returns the updated state), yet the very next cycle's
failing periodic refresh makes `run` return an error instead of
retaining the previous list and retrying. -/
theorem C1_counterexample :
    refresh_services (App.new 0) (Except.ok [svcU]) =
      Except.ok { App.new 0 with services := [svcU] } ∧
    run (App.new 0) (Except.ok [svcU]) [envFail] = RunOutcome.err :=
  ⟨rfl, rfl⟩

/-- Helper: every service produced by the unit-file pass has a name
outside `seen` and the fixed unloaded/inactive/dead status fields. -/
theorem parse_unit_files_mem (cfg seen : List String)
    (lines : List (List String)) (s : Service)
    (hs : s ∈ parse_unit_files cfg seen lines) :
    s.name ∉ seen ∧ s.loaded_state = "unloaded" ∧
    s.active_state = "inactive" ∧ s.sub_state = "dead" := by
  induction lines with
  | nil => simp [parse_unit_files] at hs
  | cons parts rest ih =>
    simp only [parse_unit_files] at hs
    split at hs
    · exact ih hs
    · split at hs
      · exact ih hs
      · rename_i hne
        rcases List.mem_cons.mp hs with hh | hh
        · subst hh
          exact ⟨hne, rfl, rfl, rfl⟩
        · exact ih hh

/-- Helper: whatever the exit status, the unit-file pass contributes
only services from its successful-status parse. -/
theorem unit_file_services_subset (cfg seen : List String)
    (output_files : CmdOutput) (s : Service)
    (hs : s ∈ unit_file_services cfg seen output_files) :
    s ∈ parse_unit_files cfg seen output_files.stdout := by
  unfold unit_file_services at hs
  split at hs
  · exact hs
  · simp at hs

/-- Claim C10 (corrected): a fetch succeeds exactly when `list-units`
spawns and exits successfully and `list-unit-files` spawns — either
spawn failure, or a non-zero `list-units` status, is an error; every
successful fetch merges the two listings (unit-file entries appended,
as unloaded/inactive/dead, exactly when their name is absent from the
loaded-unit listing, and only when that command's status was zero) and
sorts the result ascending by name; the names are pairwise distinct
provided each individual listing mentions each name at most once. -/
theorem C10_sorted_unique_merge (cfg : List String)
    (l1 : List (List String)) (output_files : CmdOutput)
    (hn1 : ((parse_loaded_units cfg l1).map Service.name).Nodup)
    (hn2 : ((parse_unit_files cfg
      ((parse_loaded_units cfg l1).map Service.name)
      output_files.stdout).map Service.name).Nodup) :
    get_user_services cfg (Except.error ()) (Except.ok output_files) =
      Except.error () ∧
    get_user_services cfg (Except.ok ⟨false, l1⟩) (Except.ok output_files) =
      Except.error () ∧
    get_user_services cfg (Except.ok ⟨true, l1⟩) (Except.error ()) =
      Except.error () ∧
    get_user_services cfg (Except.ok ⟨true, l1⟩) (Except.ok output_files) =
      Except.ok (sortServices (parse_loaded_units cfg l1 ++
        unit_file_services cfg
          ((parse_loaded_units cfg l1).map Service.name) output_files)) ∧
    List.Sorted byName (sortServices (parse_loaded_units cfg l1 ++
      unit_file_services cfg
        ((parse_loaded_units cfg l1).map Service.name) output_files)) ∧
    ((sortServices (parse_loaded_units cfg l1 ++
      unit_file_services cfg
        ((parse_loaded_units cfg l1).map Service.name) output_files)).map
      Service.name).Nodup ∧
    List.Disjoint
      ((unit_file_services cfg
        ((parse_loaded_units cfg l1).map Service.name) output_files).map
          Service.name)
      ((parse_loaded_units cfg l1).map Service.name) ∧
    ((unit_file_services cfg
      ((parse_loaded_units cfg l1).map Service.name) output_files).all
        (fun s => s.loaded_state == "unloaded" &&
          s.active_state == "inactive" && s.sub_state == "dead")) = true := by
  have hdisj : List.Disjoint
      ((unit_file_services cfg
        ((parse_loaded_units cfg l1).map Service.name) output_files).map
          Service.name)
      ((parse_loaded_units cfg l1).map Service.name) := by
    intro a ha2 ha1
    rcases List.mem_map.mp ha2 with ⟨s, hsmem, rfl⟩
    exact (parse_unit_files_mem cfg _ output_files.stdout s
      (unit_file_services_subset cfg _ output_files s hsmem)).1 ha1
  have hn2u : ((unit_file_services cfg
      ((parse_loaded_units cfg l1).map Service.name) output_files).map
        Service.name).Nodup := by
    unfold unit_file_services
    split
    · exact hn2
    · simp
  refine ⟨rfl, rfl, rfl, rfl, List.sorted_insertionSort byName _, ?_,
    hdisj, ?_⟩
  · have hperm :
        ((sortServices (parse_loaded_units cfg l1 ++
          unit_file_services cfg
            ((parse_loaded_units cfg l1).map Service.name)
            output_files)).map Service.name).Perm
        ((parse_loaded_units cfg l1 ++
          unit_file_services cfg
            ((parse_loaded_units cfg l1).map Service.name)
            output_files).map Service.name) :=
      (List.perm_insertionSort byName _).map Service.name
    rw [hperm.nodup_iff, List.map_append]
    exact hn1.append hn2u (List.disjoint_comm.mp hdisj)
  · refine List.all_eq_true.mpr fun s hs => ?_
    obtain ⟨_, h1, h2, h3⟩ := parse_unit_files_mem cfg _ output_files.stdout s
      (unit_file_services_subset cfg _ output_files s hs)
    simp [h1, h2, h3]

/-- Concrete listings used by the C10 witness: one loaded unit and one
distinct unit-file-only unit. -/
def cfgW : List String := ["a.service"]

/-- Concrete `list-units` output for the C10 witness. -/
def l1W : List (List String) := [["a.service", "loaded", "active", "running"]]

/-- Concrete `list-unit-files` output for the C10 witness. -/
def l2W : List (List String) := [["b.service", "enabled"]]

/-- Concrete successful `list-unit-files` run for the C10 witness. -/
def ufW : CmdOutput := { status_success := true, stdout := l2W }

/-- Claim C10 witness: the merge theorem applied to the concrete
listings `l1W`/`ufW`, whose names are distinct within each listing. -/
theorem C10_witness :
    ((parse_loaded_units cfgW l1W).map Service.name).Nodup ∧
    ((parse_unit_files cfgW
      ((parse_loaded_units cfgW l1W).map Service.name) ufW.stdout).map
        Service.name).Nodup ∧
    (get_user_services cfgW (Except.error ()) (Except.ok ufW) =
      Except.error () ∧
    get_user_services cfgW (Except.ok ⟨false, l1W⟩) (Except.ok ufW) =
      Except.error () ∧
    get_user_services cfgW (Except.ok ⟨true, l1W⟩) (Except.error ()) =
      Except.error () ∧
    get_user_services cfgW (Except.ok ⟨true, l1W⟩) (Except.ok ufW) =
      Except.ok (sortServices (parse_loaded_units cfgW l1W ++
        unit_file_services cfgW
          ((parse_loaded_units cfgW l1W).map Service.name) ufW)) ∧
    List.Sorted byName (sortServices (parse_loaded_units cfgW l1W ++
      unit_file_services cfgW
        ((parse_loaded_units cfgW l1W).map Service.name) ufW)) ∧
    ((sortServices (parse_loaded_units cfgW l1W ++
      unit_file_services cfgW
        ((parse_loaded_units cfgW l1W).map Service.name) ufW)).map
      Service.name).Nodup ∧
    List.Disjoint
      ((unit_file_services cfgW
        ((parse_loaded_units cfgW l1W).map Service.name) ufW).map
          Service.name)
      ((parse_loaded_units cfgW l1W).map Service.name) ∧
    ((unit_file_services cfgW
      ((parse_loaded_units cfgW l1W).map Service.name) ufW).all
        (fun s => s.loaded_state == "unloaded" &&
          s.active_state == "inactive" && s.sub_state == "dead")) = true) :=
  ⟨by decide, by decide,
    C10_sorted_unique_merge cfgW l1W ufW (by decide) (by decide)⟩

/-- The duplicated unloaded service produced by the C10
counterexample's repeated `list-unit-files` line. -/
def dupService : Service :=
  { name := "a.service"
    active_state := "inactive"
    sub_state := "dead"
    loaded_state := "unloaded"
    is_user_config := false }

/-- Claim C10, counterexample to the claim as stated: a successful
fetch whose `list-unit-files` output repeats one name yields two
services with the same name — the merge dedupes only against the
loaded-unit listing, never within a listing. -/
theorem C10_counterexample :
    get_user_services [] (Except.ok ⟨true, []⟩)
        (Except.ok ⟨true, [["a.service", "enabled"],
          ["a.service", "enabled"]]⟩) =
      Except.ok [dupService, dupService] ∧
    ¬ (([dupService, dupService] : List Service).map Service.name).Nodup := by
  constructor
  · have h1 : get_user_services [] (Except.ok ⟨true, []⟩)
        (Except.ok ⟨true, [["a.service", "enabled"],
          ["a.service", "enabled"]]⟩) =
        Except.ok (sortServices [dupService, dupService]) := rfl
    have h2 : sortServices [dupService, dupService] =
        [dupService, dupService] := by
      simp [sortServices, List.insertionSort, List.orderedInsert, byName]
    rw [h1, h2]
  · decide
